import Mathlib

/-!
Shallow embedding of the transactional-outbox simulation.

The embedding covers the two core components:

* `handleFinishOrder` / `createOutboxMessage` — the improved order service
  (package `orderimproved`): one SQLite transaction that inserts an order
  row, updates its status to FINISHED, and appends three outbox rows
  (EMAIL, NOTIFY, ANALYTIC), with a 10% random-failure hook before the
  transaction begins.  The random draw is modelled by an explicit `inject`
  Boolean; a possible store/marshal error at each statement of the
  transaction is modelled by an optional `failStep`; the wall clock
  (`CURRENT_TIMESTAMP` / `time.Now()`) is an explicit `now : Nat`.
  Rollback of an aborted transaction is modelled by returning the original
  store unchanged.  Requests are taken post-`Bind`: the handler performs no
  field validation of its own, exactly as in the source.

* `processOutboxMessages` / `processMessage` — the outbox worker
  (package `outboxworker`): one tick fetches the pending snapshot
  (`SELECT ... WHERE status = 'PENDING'`, no ORDER BY and no LIMIT; SQLite
  scans this table in rowid order, which the embedding models by keeping
  the outbox list in ascending-id order), then for each snapshot row:
  a 30% random-failure hook (`inject` oracle), a synchronous HTTP post to
  the collaborator for its type (the collaborator's response is the `net`
  oracle: `none` is a transport error, `some c` a status code), and on
  success an UPDATE to FINISHED whose own possible failure is the `upd`
  oracle.

Databases are modelled as in-memory lists of rows; AUTOINCREMENT ids are
the `nextOrderId` / `nextOutboxId` counters.  JSON payloads are modelled
structurally: the worker unmarshals the stored text into a map and
re-marshals it before posting, and since both the producer and the worker
marshal Go maps (whose keys `encoding/json` emits in sorted order), that
round trip reproduces the stored bytes; the embedding therefore treats a
stored payload and its re-marshalled form as the same `Json` value.
-/

mutual
/-- JSON-like values as produced by `json.Marshal` in the Go services.
`time` stands for a marshalled `time.Time` (the instant, as a clock value). -/
inductive Json where
  | str (s : String)
  | time (t : Nat)
  | arr (elems : JsonList)
  | obj (fields : JsonFields)
deriving DecidableEq, Repr

inductive JsonList where
  | nil
  | cons (hd : Json) (tl : JsonList)
deriving DecidableEq, Repr

inductive JsonFields where
  | nil
  | cons (key : String) (val : Json) (tl : JsonFields)
deriving DecidableEq, Repr
end

/-- The body of `POST /finish-order-improved`, after `c.Bind` has filled the
struct (absent JSON fields bind to the empty string). -/
structure OrderRequest where
  orderId : String
  userName : String
  userEmail : String
  deviceId : String
deriving DecidableEq, Repr

/-- One row of the `orders` table. -/
structure OrderRecord where
  id : Nat
  orderId : String
  userName : String
  userEmail : String
  deviceId : String
  status : String
  createdAt : Nat
  updatedAt : Nat
deriving DecidableEq, Repr

/-- One row of the `outbox` table. -/
structure OutboxMessage where
  id : Nat
  status : String
  type : String
  data : Json
  createdAt : Nat
  finishedAt : Option Nat
deriving DecidableEq, Repr

/-- The SQLite database of the improved order service: the `orders` and
`outbox` tables plus their AUTOINCREMENT counters. -/
structure Store where
  orders : List OrderRecord
  outbox : List OutboxMessage
  nextOrderId : Nat
  nextOutboxId : Nat
deriving DecidableEq, Repr

/-- One outbound `http.Post` to a collaborator: the endpoint and the JSON
body. -/
structure HttpPost where
  url : String
  body : Json
deriving DecidableEq, Repr

/-- The statements of `handleFinishOrder`'s transaction at which the store
(or `json.Marshal`) can return an error. -/
inductive TxStep where
  | beginTx
  | insertOrder
  | updateStatus
  | insertEmail
  | insertNotify
  | insertAnalytic
  | commitTx
deriving DecidableEq, Repr

/-- The EMAIL outbox payload built in `handleFinishOrder`. -/
def emailPayload (req : OrderRequest) : Json :=
  .obj (.cons "recipients" (.arr (.cons (.str req.userEmail) .nil))
    (.cons "subject" (.str "Order Completed")
      (.cons "body"
        (.str ("Your order " ++ req.orderId ++ " has been completed successfully!"))
        .nil)))

/-- The NOTIFY outbox payload built in `handleFinishOrder`. -/
def notifyPayload (req : OrderRequest) : Json :=
  .obj (.cons "deviceId" (.arr (.cons (.str req.deviceId) .nil))
    (.cons "message" (.str ("Order " ++ req.orderId ++ " completed successfully!"))
      .nil))

/-- The ANALYTIC outbox payload built in `handleFinishOrder`; `now` is the
`time.Now()` instant taken when the payload is built. -/
def analyticPayload (req : OrderRequest) (now : Nat) : Json :=
  .obj (.cons "event" (.str "order_completed")
    (.cons "orderId" (.str req.orderId)
      (.cons "userEmail" (.str req.userEmail)
        (.cons "timestamp" (.time now) .nil))))

/-- `INSERT INTO orders (order_id, user_name, user_email, device_id, status)
VALUES (?, ?, ?, ?, 'PENDING')`: appends one row with the next
AUTOINCREMENT id and `created_at = updated_at = CURRENT_TIMESTAMP`. -/
def insertOrderRow (st : Store) (req : OrderRequest) (now : Nat) : Store :=
  { st with
    orders := st.orders ++
      [{ id := st.nextOrderId, orderId := req.orderId, userName := req.userName,
         userEmail := req.userEmail, deviceId := req.deviceId,
         status := "PENDING", createdAt := now, updatedAt := now }]
    nextOrderId := st.nextOrderId + 1 }

/-- `UPDATE orders SET status = 'FINISHED', updated_at = CURRENT_TIMESTAMP
WHERE order_id = ?`: rewrites every row whose `order_id` matches. -/
def updateOrderStatus (st : Store) (orderId : String) (now : Nat) : Store :=
  { st with
    orders := st.orders.map fun o =>
      if o.orderId = orderId then { o with status := "FINISHED", updatedAt := now } else o }

/-- `createOutboxMessage`: `INSERT INTO outbox (status, type, data) VALUES
('PENDING', ?, ?)` — one row with the next AUTOINCREMENT id, a null
`finished_at`, and `created_at = CURRENT_TIMESTAMP`. -/
def createOutboxMessage (st : Store) (messageType : String) (data : Json) (now : Nat) : Store :=
  { st with
    outbox := st.outbox ++
      [{ id := st.nextOutboxId, status := "PENDING", type := messageType,
         data := data, createdAt := now, finishedAt := none }]
    nextOutboxId := st.nextOutboxId + 1 }

/-- The store produced by a committed run of `handleFinishOrder`: the order
insert, the status update, and the three outbox appends, in statement
order. -/
def successStore (st : Store) (req : OrderRequest) (now : Nat) : Store :=
  createOutboxMessage
    (createOutboxMessage
      (createOutboxMessage
        (updateOrderStatus (insertOrderRow st req now) req.orderId now)
        "EMAIL" (emailPayload req) now)
      "NOTIFY" (notifyPayload req) now)
    "ANALYTIC" (analyticPayload req now) now

/-- `handleFinishOrder` of the improved order service.  `inject` is the
`rand.Float32() < 0.1` draw; `failStep` marks the transaction statement
(if any) at which the store errors; `now` is the clock.  Returns the store
after the request, the HTTP status of the response, and the list of
outbound HTTP posts the handler made.  Every abort path returns the
original store (rollback) with status 500; the only success path commits
the five writes and returns 200.  The handler never posts to any
collaborator. -/
def handleFinishOrder (st : Store) (req : OrderRequest) (inject : Bool)
    (failStep : Option TxStep) (now : Nat) : Store × Nat × List HttpPost :=
  if inject then (st, 500, [])
  else if failStep = some TxStep.beginTx then (st, 500, [])
  else if failStep = some TxStep.insertOrder then (st, 500, [])
  else
    let tx1 := insertOrderRow st req now
    if failStep = some TxStep.updateStatus then (st, 500, [])
    else
      let tx2 := updateOrderStatus tx1 req.orderId now
      if failStep = some TxStep.insertEmail then (st, 500, [])
      else
        let tx3 := createOutboxMessage tx2 "EMAIL" (emailPayload req) now
        if failStep = some TxStep.insertNotify then (st, 500, [])
        else
          let tx4 := createOutboxMessage tx3 "NOTIFY" (notifyPayload req) now
          if failStep = some TxStep.insertAnalytic then (st, 500, [])
          else
            let tx5 := createOutboxMessage tx4 "ANALYTIC" (analyticPayload req now) now
            if failStep = some TxStep.commitTx then (st, 500, [])
            else (tx5, 200, [])

/-! ## The outbox worker (package outboxworker) -/

def emailServiceURL : String := "http://localhost:8081/send-email"

def notificationServiceURL : String := "http://localhost:8082/send-notification"

def analyticsServiceURL : String := "http://localhost:9000/events"

/-- `SELECT id, status, type, data, created_at FROM outbox WHERE status =
'PENDING'`: the pending snapshot a tick iterates over.  The query has no
LIMIT and no ORDER BY; SQLite scans the table in rowid order, which the
embedding models by keeping `Store.outbox` in ascending-id order. -/
def listPending (st : Store) : List OutboxMessage :=
  st.outbox.filter fun m => m.status = "PENDING"

/-- `UPDATE outbox SET status = 'FINISHED', finished_at = CURRENT_TIMESTAMP
WHERE id = ?`. -/
def markFinished (st : Store) (id : Nat) (now : Nat) : Store :=
  { st with
    outbox := st.outbox.map fun m =>
      if m.id = id then { m with status := "FINISHED", finishedAt := some now } else m }

/-- The HTTP post `processMessage` issues for a message, by type: EMAIL and
NOTIFY forward the stored payload verbatim; ANALYTIC wraps it under a
single top-level `payload` field; an unrecognized type posts nothing (the
`default` branch returns an error). -/
def dispatchTarget (m : OutboxMessage) : Option HttpPost :=
  if m.type = "EMAIL" then some ⟨emailServiceURL, m.data⟩
  else if m.type = "NOTIFY" then some ⟨notificationServiceURL, m.data⟩
  else if m.type = "ANALYTIC" then some ⟨analyticsServiceURL, .obj (.cons "payload" m.data .nil)⟩
  else none

/-- `processMessage`: dispatch one message to its collaborator.  `net`
gives the collaborator's answer to the post for a message id: `none` is a
transport error, `some c` a response with status code `c`; only a `200`
response is success.  An unknown type is an error without any post. -/
def processMessage (net : Nat → Option Nat) (m : OutboxMessage) : Bool :=
  match dispatchTarget m with
  | some _ => net m.id = some 200
  | none => false

/-- The FINISHED version of a message row written by `markFinished`. -/
def finishMsg (m : OutboxMessage) (now : Nat) : OutboxMessage :=
  { m with status := "FINISHED", finishedAt := some now }

/-- A snapshot message ends FINISHED in this tick exactly when the injected
failure did not fire for it, its dispatch succeeded, and the UPDATE that
marks it did not itself error. -/
def msgSucceeds (inject : Nat → Bool) (net : Nat → Option Nat) (upd : Nat → Bool)
    (m : OutboxMessage) : Bool :=
  !(inject m.id) && processMessage net m && !(upd m.id)

/-- How one tick over the snapshot `msgs` rewrites a stored row: it becomes
FINISHED when some snapshot message with its id fully succeeds, and is left
untouched otherwise. -/
def rowAfter (inject : Nat → Bool) (net : Nat → Option Nat) (upd : Nat → Bool)
    (now : Nat) (msgs : List OutboxMessage) (r : OutboxMessage) : OutboxMessage :=
  if msgs.any (fun m => msgSucceeds inject net upd m && m.id == r.id)
  then finishMsg r now else r

/-- The per-message loop of `processOutboxMessages` over the pending
snapshot: for each row of the snapshot, in order — the 30% injected
failure (`continue`), the dispatch via `processMessage` (`continue` on
error), then `markFinished` (whose own error leaves the row PENDING).
Returns the store after the loop and the ids visited, in visit order. -/
def runTick (inject : Nat → Bool) (net : Nat → Option Nat) (upd : Nat → Bool)
    (now : Nat) : List OutboxMessage → Store → Store × List Nat
  | [], s => (s, [])
  | m :: rest, s =>
    let s1 :=
      if inject m.id then s
      else if processMessage net m then
        (if upd m.id then s else markFinished s m.id now)
      else s
    let r := runTick inject net upd now rest s1
    (r.1, m.id :: r.2)

/-- One tick of the outbox worker (`processOutboxMessages`): count the
pending messages, return at once when there are none, and otherwise run
the loop over the pending snapshot. -/
def processOutboxMessages (st : Store) (inject : Nat → Bool) (net : Nat → Option Nat)
    (upd : Nat → Bool) (now : Nat) : Store × List Nat :=
  if (listPending st).length = 0 then (st, [])
  else runTick inject net upd now (listPending st) st

/-! ## Concrete fixtures used by the witnesses -/

def sampleMsg1 : OutboxMessage := ⟨1, "PENDING", "EMAIL", .str "a", 0, none⟩

def sampleMsg2 : OutboxMessage := ⟨2, "FINISHED", "NOTIFY", .str "b", 0, some 1⟩

/-- A pending message whose type is outside the closed type set. -/
def sampleMsg3 : OutboxMessage := ⟨3, "PENDING", "ZZZ", .str "c", 0, none⟩

def sampleStore : Store := ⟨[], [sampleMsg1, sampleMsg2, sampleMsg3], 1, 4⟩

/-- Oracle: every collaborator answers 200. -/
def netOK : Nat → Option Nat := fun _ => some 200

/-- Oracle: the 30% draw never fires. -/
def noInject : Nat → Bool := fun _ => false

/-- Oracle: no UPDATE errors. -/
def noUpdFail : Nat → Bool := fun _ => false

/-- Oracle: the 30% draw fires exactly for message id 1. -/
def injectOn1 : Nat → Bool := fun i => i == 1

def emptyStore : Store := ⟨[], [], 1, 1⟩

def sampleAnalyticMsg : OutboxMessage := ⟨5, "PENDING", "ANALYTIC", .str "x", 0, none⟩

def sampleReq : OrderRequest := ⟨"O1", "Alice", "a@x.com", "D1"⟩

/-! ## Characterization of one worker tick -/

theorem finishMsg_id (m : OutboxMessage) (now : Nat) : (finishMsg m now).id = m.id := rfl

theorem finishMsg_idem (m : OutboxMessage) (now : Nat) :
    finishMsg (finishMsg m now) now = finishMsg m now := rfl

theorem rowAfter_id (inject : Nat → Bool) (net : Nat → Option Nat) (upd : Nat → Bool)
    (now : Nat) (msgs : List OutboxMessage) (r : OutboxMessage) :
    (rowAfter inject net upd now msgs r).id = r.id := by
  unfold rowAfter
  split <;> rfl

theorem rowAfter_nil (inject : Nat → Bool) (net : Nat → Option Nat) (upd : Nat → Bool)
    (now : Nat) (r : OutboxMessage) : rowAfter inject net upd now [] r = r := by
  simp [rowAfter]

theorem rowAfter_cons_fail (inject : Nat → Bool) (net : Nat → Option Nat) (upd : Nat → Bool)
    (now : Nat) (m : OutboxMessage) (rest : List OutboxMessage)
    (h : msgSucceeds inject net upd m = false) :
    rowAfter inject net upd now (m :: rest) = rowAfter inject net upd now rest := by
  funext r
  simp [rowAfter, h]

theorem rowAfter_cons_succ (inject : Nat → Bool) (net : Nat → Option Nat) (upd : Nat → Bool)
    (now : Nat) (m : OutboxMessage) (rest : List OutboxMessage)
    (h : msgSucceeds inject net upd m = true) :
    rowAfter inject net upd now (m :: rest) =
      fun r => rowAfter inject net upd now rest
        (if r.id = m.id then finishMsg r now else r) := by
  funext r
  by_cases hid : r.id = m.id
  · simp [rowAfter, h, hid, finishMsg_id, finishMsg_idem]
  · have hne : ¬(m.id = r.id) := fun hmr => hid hmr.symm
    simp [rowAfter, h, hid, hne]

theorem markFinished_outbox (s : Store) (id now : Nat) :
    (markFinished s id now).outbox =
      s.outbox.map fun m => if m.id = id then finishMsg m now else m := rfl

/-- The ids visited by the per-message loop are exactly the snapshot's ids,
in snapshot order. -/
theorem runTick_snd (inject : Nat → Bool) (net : Nat → Option Nat) (upd : Nat → Bool)
    (now : Nat) (msgs : List OutboxMessage) :
    ∀ s : Store, (runTick inject net upd now msgs s).2 = msgs.map (fun m => m.id) := by
  induction msgs with
  | nil => intro s; simp [runTick]
  | cons m rest ih => intro s; simp [runTick, ih]

/-- The store after the per-message loop: the outbox is rewritten row by
row by `rowAfter`, and nothing else of the store changes. -/
theorem runTick_fst (inject : Nat → Bool) (net : Nat → Option Nat) (upd : Nat → Bool)
    (now : Nat) (msgs : List OutboxMessage) :
    ∀ s : Store, (runTick inject net upd now msgs s).1 =
      { s with outbox := s.outbox.map (rowAfter inject net upd now msgs) } := by
  induction msgs with
  | nil =>
    intro s
    simp only [runTick]
    have h : s.outbox.map (rowAfter inject net upd now []) = s.outbox := by
      have : ∀ r ∈ s.outbox, rowAfter inject net upd now [] r = r := fun r _ => rowAfter_nil ..
      simp [List.map_congr_left this]
    rw [h]
  | cons m rest ih =>
    intro s
    simp only [runTick]
    cases hi : inject m.id with
    | true =>
      have hfail : msgSucceeds inject net upd m = false := by simp [msgSucceeds, hi]
      simp only [hi, if_true, ih, rowAfter_cons_fail inject net upd now m rest hfail]
    | false =>
      cases hp : processMessage net m with
      | false =>
        have hfail : msgSucceeds inject net upd m = false := by simp [msgSucceeds, hi, hp]
        simp only [hi, hp, Bool.false_eq_true, if_false, ih,
          rowAfter_cons_fail inject net upd now m rest hfail]
      | true =>
        cases hu : upd m.id with
        | true =>
          have hfail : msgSucceeds inject net upd m = false := by simp [msgSucceeds, hi, hp, hu]
          simp only [hi, hp, hu, Bool.false_eq_true, if_false, if_true, ih,
            rowAfter_cons_fail inject net upd now m rest hfail]
        | false =>
          have hsucc : msgSucceeds inject net upd m = true := by simp [msgSucceeds, hi, hp, hu]
          simp only [hi, hp, hu, Bool.false_eq_true, if_false, if_true, ih,
            markFinished, List.map_map,
            rowAfter_cons_succ inject net upd now m rest hsucc]
          rfl

/-- One tick rewrites the outbox pointwise by `rowAfter` over the pending
snapshot and leaves the rest of the store alone. -/
theorem tick_fst (st : Store) (inject : Nat → Bool) (net : Nat → Option Nat)
    (upd : Nat → Bool) (now : Nat) :
    (processOutboxMessages st inject net upd now).1 =
      { st with outbox := st.outbox.map (rowAfter inject net upd now (listPending st)) } := by
  unfold processOutboxMessages
  by_cases h : (listPending st).length = 0
  · have hnil : listPending st = [] := List.length_eq_zero.mp h
    have hmap : st.outbox.map (rowAfter inject net upd now (listPending st)) = st.outbox := by
      have : ∀ r ∈ st.outbox, rowAfter inject net upd now (listPending st) r = r := by
        intro r _; rw [hnil]; exact rowAfter_nil ..
      simp [List.map_congr_left this]
    simp [h, hmap]
  · simp [h, runTick_fst]

/-- One tick visits exactly the pending snapshot, in order. -/
theorem tick_snd (st : Store) (inject : Nat → Bool) (net : Nat → Option Nat)
    (upd : Nat → Bool) (now : Nat) :
    (processOutboxMessages st inject net upd now).2 = (listPending st).map (fun m => m.id) := by
  unfold processOutboxMessages
  by_cases h : (listPending st).length = 0
  · have hnil : listPending st = [] := List.length_eq_zero.mp h
    simp [h, hnil]
  · simp [h, runTick_snd]

/-! ## Helper lemmas about the order service -/

/-- The handler with no injected failure and no store error commits the five
writes and answers 200 without posting anywhere. -/
theorem handleFinishOrder_success (st : Store) (req : OrderRequest) (now : Nat) :
    handleFinishOrder st req false none now = (successStore st req now, 200, []) := rfl

theorem successStore_outbox (st : Store) (req : OrderRequest) (now : Nat) :
    (successStore st req now).outbox = st.outbox ++
      [{ id := st.nextOutboxId, status := "PENDING", type := "EMAIL",
         data := emailPayload req, createdAt := now, finishedAt := none },
       { id := st.nextOutboxId + 1, status := "PENDING", type := "NOTIFY",
         data := notifyPayload req, createdAt := now, finishedAt := none },
       { id := st.nextOutboxId + 2, status := "PENDING", type := "ANALYTIC",
         data := analyticPayload req now, createdAt := now, finishedAt := none }] := by
  simp [successStore, createOutboxMessage, updateOrderStatus, insertOrderRow]

theorem successStore_orders (st : Store) (req : OrderRequest) (now : Nat) :
    (successStore st req now).orders =
      (st.orders.map fun o =>
        if o.orderId = req.orderId then { o with status := "FINISHED", updatedAt := now } else o)
      ++ [{ id := st.nextOrderId, orderId := req.orderId, userName := req.userName,
            userEmail := req.userEmail, deviceId := req.deviceId,
            status := "FINISHED", createdAt := now, updatedAt := now }] := by
  simp [successStore, createOutboxMessage, updateOrderStatus, insertOrderRow]

theorem updatedRow_orderId (o : OrderRecord) (oid : String) (now : Nat) :
    (if o.orderId = oid then { o with status := "FINISHED", updatedAt := now } else o).orderId
      = o.orderId := by
  split <;> rfl

/-- Members of a list pairwise strictly sorted by id are determined by
their id. -/
theorem outbox_id_inj {l : List OutboxMessage}
    (hwf : l.Pairwise (fun a b => a.id < b.id)) :
    ∀ a ∈ l, ∀ b ∈ l, a.id = b.id → a = b := by
  have hne : l.Pairwise (fun a b => a.id ≠ b.id) :=
    hwf.imp fun h => Nat.ne_of_lt h
  have hnd : (l.map (fun m => m.id)).Nodup := (List.pairwise_map).mpr hne
  exact fun a ha b hb h => List.inj_on_of_nodup_map hnd ha hb h

/-! ## Claims -/

/-- Claim C1: a committed order-completion request (HTTP 200 from
`/finish-order-improved`) leaves, immediately after the commit, exactly one
order row for that request — transitioned to FINISHED — and exactly three
outbox rows created for it, one EMAIL, one NOTIFY, one ANALYTIC, all
PENDING with a null `finished_at`.  The hypothesis states that the request
is a fresh one (its business orderId is not already in the store). -/
theorem commit_exactly_one_order_three_outbox (st : Store) (req : OrderRequest) (now : Nat)
    (h : ∀ o ∈ st.orders, o.orderId ≠ req.orderId) :
    (handleFinishOrder st req false none now).2.1 = 200 ∧
    (handleFinishOrder st req false none now).1.orders.filter
        (fun o => o.orderId = req.orderId) =
      [{ id := st.nextOrderId, orderId := req.orderId, userName := req.userName,
         userEmail := req.userEmail, deviceId := req.deviceId,
         status := "FINISHED", createdAt := now, updatedAt := now }] ∧
    (handleFinishOrder st req false none now).1.outbox = st.outbox ++
      [{ id := st.nextOutboxId, status := "PENDING", type := "EMAIL",
         data := emailPayload req, createdAt := now, finishedAt := none },
       { id := st.nextOutboxId + 1, status := "PENDING", type := "NOTIFY",
         data := notifyPayload req, createdAt := now, finishedAt := none },
       { id := st.nextOutboxId + 2, status := "PENDING", type := "ANALYTIC",
         data := analyticPayload req now, createdAt := now, finishedAt := none }] := by
  refine ⟨rfl, ?_, by rw [handleFinishOrder_success]; exact successStore_outbox ..⟩
  rw [handleFinishOrder_success]
  simp only [successStore_orders, List.filter_append]
  have h1 : List.filter (fun o => o.orderId = req.orderId)
      (st.orders.map fun o =>
        if o.orderId = req.orderId then { o with status := "FINISHED", updatedAt := now } else o)
      = [] := by
    rw [List.filter_eq_nil_iff]
    intro a ha
    obtain ⟨o, ho, rfl⟩ := List.mem_map.mp ha
    simp [updatedRow_orderId, h o ho]
  rw [h1]
  simp

/-- Claim C1 witness: a concrete fresh request against the empty store. -/
theorem commit_exactly_one_order_three_outbox_witness :
    (handleFinishOrder ⟨[], [], 1, 1⟩ ⟨"O1", "Alice", "a@x.com", "D1"⟩ false none 7).2.1 = 200 ∧
    (handleFinishOrder ⟨[], [], 1, 1⟩ ⟨"O1", "Alice", "a@x.com", "D1"⟩ false none 7).1.orders.filter
        (fun o => o.orderId = "O1") =
      [{ id := 1, orderId := "O1", userName := "Alice", userEmail := "a@x.com",
         deviceId := "D1", status := "FINISHED", createdAt := 7, updatedAt := 7 }] ∧
    (handleFinishOrder ⟨[], [], 1, 1⟩ ⟨"O1", "Alice", "a@x.com", "D1"⟩ false none 7).1.outbox =
      [] ++
      [{ id := 1, status := "PENDING", type := "EMAIL",
         data := emailPayload ⟨"O1", "Alice", "a@x.com", "D1"⟩, createdAt := 7, finishedAt := none },
       { id := 2, status := "PENDING", type := "NOTIFY",
         data := notifyPayload ⟨"O1", "Alice", "a@x.com", "D1"⟩, createdAt := 7, finishedAt := none },
       { id := 3, status := "PENDING", type := "ANALYTIC",
         data := analyticPayload ⟨"O1", "Alice", "a@x.com", "D1"⟩ 7, createdAt := 7,
         finishedAt := none }] :=
  commit_exactly_one_order_three_outbox ⟨[], [], 1, 1⟩ ⟨"O1", "Alice", "a@x.com", "D1"⟩ 7
    (by decide)

/-- Claim C2: every abort of the atomic unit — the injected failure, or a
store error at any statement of the transaction — returns an error (HTTP
500) and leaves the store exactly as it was: zero order rows and zero
outbox rows for that request survive, and no HTTP post is made. -/
theorem aborted_unit_no_state (st : Store) (req : OrderRequest) (inject : Bool)
    (failStep : Option TxStep) (now : Nat)
    (h : inject = true ∨ failStep ≠ none) :
    handleFinishOrder st req inject failStep now = (st, 500, []) := by
  cases hi : inject with
  | true => simp [handleFinishOrder]
  | false =>
    rcases h with h | h
    · rw [hi] at h; exact absurd h (by simp)
    · rcases failStep with _ | s
      · exact absurd rfl h
      · cases s <;> simp [handleFinishOrder]

/-- Claim C2 witness: the injected failure, and a store error at the
analytics-outbox insert, each leave the concrete store untouched. -/
theorem aborted_unit_no_state_witness :
    handleFinishOrder ⟨[], [], 1, 1⟩ ⟨"O1", "Alice", "a@x.com", "D1"⟩ true none 3 =
      (⟨[], [], 1, 1⟩, 500, []) ∧
    handleFinishOrder ⟨[], [], 1, 1⟩ ⟨"O1", "Alice", "a@x.com", "D1"⟩ false
        (some TxStep.insertAnalytic) 3 = (⟨[], [], 1, 1⟩, 500, []) :=
  ⟨aborted_unit_no_state _ _ _ _ _ (Or.inl rfl),
   aborted_unit_no_state _ _ _ _ _ (Or.inr (by decide))⟩

/-- Claim C3 counterexample: a request whose four fields are all empty is
not rejected — the handler performs no emptiness validation.  With no
injected failure and no store error, the all-empty request returns 200 and
persists one order row and three outbox rows. -/
theorem empty_fields_not_rejected :
    (handleFinishOrder ⟨[], [], 1, 1⟩ ⟨"", "", "", ""⟩ false none 0).2.1 = 200 ∧
    (handleFinishOrder ⟨[], [], 1, 1⟩ ⟨"", "", "", ""⟩ false none 0).1.orders.length = 1 ∧
    (handleFinishOrder ⟨[], [], 1, 1⟩ ⟨"", "", "", ""⟩ false none 0).1.outbox.length = 3 := by
  decide

/-- Claim C3 amended: the handler validates nothing — a request carrying an
absent/empty order identifier, customer name, contact address or device
identifier is processed exactly like any other request: absent an injected
failure or store error it returns 200 and persists one order row and three
outbox rows. -/
theorem empty_fields_processed (st : Store) (req : OrderRequest) (now : Nat)
    (_hEmpty : req.orderId = "" ∨ req.userName = "" ∨ req.userEmail = "" ∨ req.deviceId = "") :
    (handleFinishOrder st req false none now).2.1 = 200 ∧
    (handleFinishOrder st req false none now).1.orders.length = st.orders.length + 1 ∧
    (handleFinishOrder st req false none now).1.outbox.length = st.outbox.length + 3 := by
  refine ⟨rfl, ?_, ?_⟩ <;> rw [handleFinishOrder_success]
  · simp [successStore_orders]
  · simp [successStore_outbox]

/-- Claim C3 amended witness: a request with an empty orderId commits
normally. -/
theorem empty_fields_processed_witness :
    (handleFinishOrder ⟨[], [], 1, 1⟩ ⟨"", "Alice", "a@x.com", "D1"⟩ false none 4).2.1 = 200 ∧
    (handleFinishOrder ⟨[], [], 1, 1⟩ ⟨"", "Alice", "a@x.com", "D1"⟩ false none 4).1.orders.length
      = 0 + 1 ∧
    (handleFinishOrder ⟨[], [], 1, 1⟩ ⟨"", "Alice", "a@x.com", "D1"⟩ false none 4).1.outbox.length
      = 0 + 3 :=
  empty_fields_processed ⟨[], [], 1, 1⟩ ⟨"", "Alice", "a@x.com", "D1"⟩ 4 (Or.inl rfl)

/-- Claim C4: `listPending` returns, for every store state, all messages
with status PENDING (with no bound on batch size), in ascending-id order
— the hypothesis is the store invariant that the outbox table is kept in
ascending rowid order — and one worker tick visits exactly those messages
in exactly that id order. -/
theorem listPending_complete_ordered (st : Store) (inject : Nat → Bool)
    (net : Nat → Option Nat) (upd : Nat → Bool) (now : Nat)
    (hwf : st.outbox.Pairwise (fun a b => a.id < b.id)) :
    (∀ m : OutboxMessage, m ∈ listPending st ↔ (m ∈ st.outbox ∧ m.status = "PENDING")) ∧
    (listPending st).Pairwise (fun a b => a.id < b.id) ∧
    (processOutboxMessages st inject net upd now).2 = (listPending st).map (fun m => m.id) := by
  refine ⟨?_, ?_, tick_snd ..⟩
  · intro m
    simp [listPending, List.mem_filter]
  · exact hwf.sublist (List.filter_sublist _)

/-- Claim C4 witness: a store holding a FINISHED message between two
PENDING ones. -/
theorem listPending_complete_ordered_witness :
    (∀ m : OutboxMessage, m ∈ listPending sampleStore ↔
      (m ∈ sampleStore.outbox ∧ m.status = "PENDING")) ∧
    (listPending sampleStore).Pairwise (fun a b => a.id < b.id) ∧
    (processOutboxMessages sampleStore noInject netOK noUpdFail 9).2 =
      (listPending sampleStore).map (fun m => m.id) :=
  listPending_complete_ordered sampleStore noInject netOK noUpdFail 9 (by decide)

/-- Claim C5: relay per-tick closure.  After one tick the outbox holds the
same rows (same ids, none deleted, none created); every row is either
untouched or its PENDING original advanced to FINISHED with `finished_at`
set to the tick's clock — so no row is ever set to PROCESSING or FAILED —
and the invariant "`finished_at` is non-null exactly on FINISHED rows" is
preserved. -/
theorem tick_closure (st : Store) (inject : Nat → Bool) (net : Nat → Option Nat)
    (upd : Nat → Bool) (now : Nat)
    (hwf : st.outbox.Pairwise (fun a b => a.id < b.id))
    (hinv : ∀ m ∈ st.outbox, m.status = "FINISHED" ↔ m.finishedAt.isSome = true) :
    (processOutboxMessages st inject net upd now).1.outbox.map (fun m => m.id) =
      st.outbox.map (fun m => m.id) ∧
    (∀ m1 ∈ (processOutboxMessages st inject net upd now).1.outbox, ∃ m ∈ st.outbox,
      m1 = m ∨ (m.status = "PENDING" ∧ m1 = finishMsg m now)) ∧
    (∀ m1 ∈ (processOutboxMessages st inject net upd now).1.outbox,
      m1.status = "FINISHED" ↔ m1.finishedAt.isSome = true) := by
  have hmem : ∀ m1 ∈ (processOutboxMessages st inject net upd now).1.outbox, ∃ m ∈ st.outbox,
      m1 = m ∨ (m.status = "PENDING" ∧ m1 = finishMsg m now) := by
    rw [tick_fst]
    intro m1 hm1
    obtain ⟨r, hr, rfl⟩ := List.mem_map.mp hm1
    refine ⟨r, hr, ?_⟩
    unfold rowAfter
    split
    case isTrue hany =>
      right
      obtain ⟨msg, hmsg, hcond⟩ := List.any_eq_true.mp hany
      have hcond2 := Bool.and_eq_true_iff.mp hcond
      have hid : msg.id = r.id := by simpa using hcond2.2
      have hmsgOut : msg ∈ st.outbox ∧ msg.status = "PENDING" := by
        have := List.mem_filter.mp hmsg
        exact ⟨this.1, of_decide_eq_true this.2⟩
      have : msg = r := outbox_id_inj hwf msg hmsgOut.1 r hr hid
      exact ⟨this ▸ hmsgOut.2, rfl⟩
    case isFalse => exact Or.inl rfl
  refine ⟨?_, hmem, ?_⟩
  · rw [tick_fst]
    simp only [List.map_map]
    exact List.map_congr_left fun r _ => rowAfter_id ..
  · intro m1 hm1
    obtain ⟨m, hm, hcase⟩ := hmem m1 hm1
    rcases hcase with heq | ⟨_, heq⟩
    · rw [heq]; exact hinv m hm
    · rw [heq]; simp [finishMsg]

/-- Claim C5 witness: a tick over a mixed concrete store (one injected
failure, one already-FINISHED row, one unknown-type row). -/
theorem tick_closure_witness :
    (processOutboxMessages sampleStore injectOn1 netOK noUpdFail 9).1.outbox.map
        (fun m => m.id) = sampleStore.outbox.map (fun m => m.id) ∧
    (∀ m1 ∈ (processOutboxMessages sampleStore injectOn1 netOK noUpdFail 9).1.outbox,
      ∃ m ∈ sampleStore.outbox,
        m1 = m ∨ (m.status = "PENDING" ∧ m1 = finishMsg m 9)) ∧
    (∀ m1 ∈ (processOutboxMessages sampleStore injectOn1 netOK noUpdFail 9).1.outbox,
      m1.status = "FINISHED" ↔ m1.finishedAt.isSome = true) :=
  tick_closure sampleStore injectOn1 netOK noUpdFail 9 (by decide) (by decide)

/-- Claim C6: dispatch shaping and success condition.  EMAIL and NOTIFY
posts carry the stored payload verbatim to their collaborator endpoints;
an ANALYTIC post wraps the stored payload under a single top-level
`payload` field; and for each of the three types the dispatch succeeds
exactly when the collaborator answers status 200 — a transport error
(no response) or any other status is a dispatch failure. -/
theorem dispatch_shapes (m : OutboxMessage) (net : Nat → Option Nat) :
    (m.type = "EMAIL" → dispatchTarget m = some ⟨emailServiceURL, m.data⟩) ∧
    (m.type = "NOTIFY" → dispatchTarget m = some ⟨notificationServiceURL, m.data⟩) ∧
    (m.type = "ANALYTIC" →
      dispatchTarget m = some ⟨analyticsServiceURL, .obj (.cons "payload" m.data .nil)⟩) ∧
    ((m.type = "EMAIL" ∨ m.type = "NOTIFY" ∨ m.type = "ANALYTIC") →
      (processMessage net m = true ↔ net m.id = some 200)) := by
  refine ⟨fun h => by simp [dispatchTarget, h], fun h => by simp [dispatchTarget, h],
    fun h => by simp [dispatchTarget, h], fun h => ?_⟩
  rcases h with h | h | h <;> simp [processMessage, dispatchTarget, h]

/-- Claim C6 witness: a concrete ANALYTIC message against a collaborator
answering 200. -/
theorem dispatch_shapes_witness :
    (sampleAnalyticMsg.type = "EMAIL" →
      dispatchTarget sampleAnalyticMsg = some ⟨emailServiceURL, sampleAnalyticMsg.data⟩) ∧
    (sampleAnalyticMsg.type = "NOTIFY" →
      dispatchTarget sampleAnalyticMsg =
        some ⟨notificationServiceURL, sampleAnalyticMsg.data⟩) ∧
    (sampleAnalyticMsg.type = "ANALYTIC" →
      dispatchTarget sampleAnalyticMsg =
        some ⟨analyticsServiceURL, .obj (.cons "payload" sampleAnalyticMsg.data .nil)⟩) ∧
    ((sampleAnalyticMsg.type = "EMAIL" ∨ sampleAnalyticMsg.type = "NOTIFY" ∨
      sampleAnalyticMsg.type = "ANALYTIC") →
      (processMessage netOK sampleAnalyticMsg = true ↔
        netOK sampleAnalyticMsg.id = some 200)) :=
  dispatch_shapes sampleAnalyticMsg netOK

/-- Claim C7 counterexample: the three payloads are not a function of the
request fields alone.  Two committing runs of the handler on the same
request (both answer 200) at clock 0 and clock 1 store different ANALYTIC
payloads, because the ANALYTIC payload embeds the commit-time
`time.Now()` timestamp. -/
theorem payload_determinism_counterexample :
    (handleFinishOrder emptyStore sampleReq false none 0).2.1 = 200 ∧
    (handleFinishOrder emptyStore sampleReq false none 1).2.1 = 200 ∧
    ((handleFinishOrder emptyStore sampleReq false none 0).1.outbox.filter
        (fun m => m.type = "ANALYTIC")).map (fun m => m.data) ≠
      ((handleFinishOrder emptyStore sampleReq false none 1).1.outbox.filter
        (fun m => m.type = "ANALYTIC")).map (fun m => m.data) := by
  decide

/-- Claim C7 amended: the EMAIL and NOTIFY payloads appended by a
committing run are deterministic functions of the request fields alone
(two committing runs on the same request store identical EMAIL and NOTIFY
payloads, with the documented recipients/subject/body and
deviceId/message shapes); the ANALYTIC payload (event, orderId, userEmail,
timestamp) is a function of the request fields and the commit-time clock,
and two runs store identical ANALYTIC payloads exactly when their clocks
coincide. -/
theorem payload_determinism_amended (st1 st2 : Store) (req : OrderRequest) (now1 now2 : Nat) :
    ((handleFinishOrder st1 req false none now1).1.outbox.drop st1.outbox.length).map
        (fun m => (m.type, m.data)) =
      [("EMAIL", emailPayload req), ("NOTIFY", notifyPayload req),
       ("ANALYTIC", analyticPayload req now1)] ∧
    ((handleFinishOrder st2 req false none now2).1.outbox.drop st2.outbox.length).map
        (fun m => (m.type, m.data)) =
      [("EMAIL", emailPayload req), ("NOTIFY", notifyPayload req),
       ("ANALYTIC", analyticPayload req now2)] ∧
    (analyticPayload req now1 = analyticPayload req now2 ↔ now1 = now2) := by
  refine ⟨?_, ?_, ?_⟩
  · rw [handleFinishOrder_success]
    simp [successStore_outbox, List.drop_left]
  · rw [handleFinishOrder_success]
    simp [successStore_outbox, List.drop_left]
  · simp [analyticPayload]

/-- Claim C8: the handler's side effects are exactly the local writes of
the one transaction — it posts nothing to any collaborator, its store
effect is either nothing (rollback) or exactly the committed five writes
(`successStore`: one order insert, one status update, three outbox
appends), and its response is 200 exactly when the local commit went
through, independent of any delivery. -/
theorem processOrder_frame (st : Store) (req : OrderRequest) (inject : Bool)
    (failStep : Option TxStep) (now : Nat) :
    (handleFinishOrder st req inject failStep now).2.2 = [] ∧
    (handleFinishOrder st req inject failStep now = (st, 500, []) ∨
      handleFinishOrder st req inject failStep now = (successStore st req now, 200, [])) ∧
    ((handleFinishOrder st req inject failStep now).2.1 = 200 ↔
      (inject = false ∧ failStep = none)) := by
  cases hi : inject with
  | true =>
    refine ⟨rfl, Or.inl ?_, ?_⟩
    · simp [handleFinishOrder]
    · simp [handleFinishOrder]
  | false =>
    rcases failStep with _ | s
    · rw [handleFinishOrder_success]
      exact ⟨rfl, Or.inr rfl, by simp⟩
    · have h500 : handleFinishOrder st req false (some s) now = (st, 500, []) :=
        aborted_unit_no_state st req false (some s) now (Or.inr (by simp))
      rw [h500]
      exact ⟨rfl, Or.inl rfl, by simp⟩

/-- Claim C8 witness: the success run and an aborted run of a concrete
request. -/
theorem processOrder_frame_witness :
    (handleFinishOrder emptyStore sampleReq false none 7).2.2 = [] ∧
    (handleFinishOrder emptyStore sampleReq false none 7 = (emptyStore, 500, []) ∨
      handleFinishOrder emptyStore sampleReq false none 7 =
        (successStore emptyStore sampleReq 7, 200, [])) ∧
    ((handleFinishOrder emptyStore sampleReq false none 7).2.1 = 200 ↔
      (false = false ∧ (none : Option TxStep) = none)) :=
  processOrder_frame emptyStore sampleReq false none 7

/-- Claim C9: relay error containment.  If processing one pending message
fails — the injected failure, a dispatch failure (transport error,
non-200 status, or a type outside the closed set, which always fails
dispatch), or a failing status UPDATE — then that message's row survives
the tick completely unchanged (still PENDING, to be retried later), the
tick still visits every pending message, and every other pending message
that fully succeeds is still advanced to FINISHED. -/
theorem relay_error_containment (st : Store) (inject : Nat → Bool) (net : Nat → Option Nat)
    (upd : Nat → Bool) (now : Nat) (m : OutboxMessage)
    (hwf : st.outbox.Pairwise (fun a b => a.id < b.id))
    (hm : m ∈ st.outbox) (_hpend : m.status = "PENDING")
    (hfail : msgSucceeds inject net upd m = false) :
    (∀ x : OutboxMessage, ∀ nf : Nat → Option Nat,
      x.type ≠ "EMAIL" → x.type ≠ "NOTIFY" → x.type ≠ "ANALYTIC" →
        processMessage nf x = false) ∧
    m ∈ (processOutboxMessages st inject net upd now).1.outbox ∧
    (processOutboxMessages st inject net upd now).2 = (listPending st).map (fun x => x.id) ∧
    (∀ m2 ∈ st.outbox, m2.status = "PENDING" → msgSucceeds inject net upd m2 = true →
      finishMsg m2 now ∈ (processOutboxMessages st inject net upd now).1.outbox) := by
  refine ⟨?_, ?_, tick_snd .., ?_⟩
  · intro x nf h1 h2 h3
    simp [processMessage, dispatchTarget, h1, h2, h3]
  · rw [tick_fst]
    have hrow : rowAfter inject net upd now (listPending st) m = m := by
      unfold rowAfter
      rw [if_neg]
      intro hany
      obtain ⟨msg, hmsg, hcond⟩ := List.any_eq_true.mp hany
      have hcond2 := Bool.and_eq_true_iff.mp hcond
      have hid : msg.id = m.id := by simpa using hcond2.2
      have hmsgIn : msg ∈ st.outbox := (List.mem_filter.mp hmsg).1
      have : msg = m := outbox_id_inj hwf msg hmsgIn m hm hid
      rw [this] at hcond2
      exact absurd hcond2.1 (by simp [hfail])
    exact hrow ▸ List.mem_map_of_mem _ hm
  · intro m2 hm2 hpend2 hsucc2
    rw [tick_fst]
    have hrow : rowAfter inject net upd now (listPending st) m2 = finishMsg m2 now := by
      unfold rowAfter
      rw [if_pos]
      refine List.any_eq_true.mpr ⟨m2, ?_, ?_⟩
      · exact List.mem_filter.mpr ⟨hm2, by simp [hpend2]⟩
      · simp [hsucc2]
    exact hrow ▸ List.mem_map_of_mem _ hm2

/-- Claim C9 witness: in the sample store, message 1 fails by injection
and the unknown-type message 3 fails dispatch, yet both survive unchanged
while the tick still visits every pending row; re-run with the injection
off for message 3's id shows a succeeding peer advancing. -/
theorem relay_error_containment_witness :
    (∀ x : OutboxMessage, ∀ nf : Nat → Option Nat,
      x.type ≠ "EMAIL" → x.type ≠ "NOTIFY" → x.type ≠ "ANALYTIC" →
        processMessage nf x = false) ∧
    sampleMsg3 ∈ (processOutboxMessages sampleStore injectOn1 netOK noUpdFail 9).1.outbox ∧
    (processOutboxMessages sampleStore injectOn1 netOK noUpdFail 9).2 =
      (listPending sampleStore).map (fun x => x.id) ∧
    (∀ m2 ∈ sampleStore.outbox, m2.status = "PENDING" →
      msgSucceeds injectOn1 netOK noUpdFail m2 = true →
      finishMsg m2 9 ∈ (processOutboxMessages sampleStore injectOn1 netOK noUpdFail 9).1.outbox) :=
  relay_error_containment sampleStore injectOn1 netOK noUpdFail 9 sampleMsg3
    (by decide) (by decide) (by decide) (by decide)

/-- Claim C10: the caller-supplied orderId is not unique.  A successful
run whose orderId already appears in the store is still accepted with 200,
inserts one more order row and three more outbox rows, and its UPDATE
rewrites the status and `updated_at` of every existing row sharing that
orderId. -/
theorem duplicate_orderId_overwrites (st : Store) (req : OrderRequest) (now : Nat) :
    (handleFinishOrder st req false none now).2.1 = 200 ∧
    (handleFinishOrder st req false none now).1.orders.length = st.orders.length + 1 ∧
    (handleFinishOrder st req false none now).1.outbox.length = st.outbox.length + 3 ∧
    (∀ o ∈ st.orders, o.orderId = req.orderId →
      { o with status := "FINISHED", updatedAt := now } ∈
        (handleFinishOrder st req false none now).1.orders) := by
  refine ⟨rfl, ?_, ?_, ?_⟩ <;> rw [handleFinishOrder_success]
  · simp [successStore_orders]
  · simp [successStore_outbox]
  · intro o ho heq
    rw [successStore_orders]
    refine List.mem_append_left _ (List.mem_map.mpr ⟨o, ho, ?_⟩)
    simp [heq]

/-- Claim C10 witness: running the same orderId twice.  The second run is
accepted and rewrites the first run's row (originally updated at clock 5)
to `updated_at = 9`. -/
theorem duplicate_orderId_overwrites_witness :
    (handleFinishOrder (handleFinishOrder emptyStore sampleReq false none 5).1
        sampleReq false none 9).2.1 = 200 ∧
    (handleFinishOrder (handleFinishOrder emptyStore sampleReq false none 5).1
        sampleReq false none 9).1.orders.length =
      (handleFinishOrder emptyStore sampleReq false none 5).1.orders.length + 1 ∧
    (handleFinishOrder (handleFinishOrder emptyStore sampleReq false none 5).1
        sampleReq false none 9).1.outbox.length =
      (handleFinishOrder emptyStore sampleReq false none 5).1.outbox.length + 3 ∧
    (∀ o ∈ (handleFinishOrder emptyStore sampleReq false none 5).1.orders,
      o.orderId = sampleReq.orderId →
      { o with status := "FINISHED", updatedAt := 9 } ∈
        (handleFinishOrder (handleFinishOrder emptyStore sampleReq false none 5).1
          sampleReq false none 9).1.orders) :=
  duplicate_orderId_overwrites (handleFinishOrder emptyStore sampleReq false none 5).1
    sampleReq 9
